import Mathlib

/-!
Shallow embedding of `transcribe_audio.py` (Payoya251/AudioToText).

The program batch-transcribes a directory of audio files with Vosk:
`convert_to_wav` normalizes audio to a temporary 16 kHz mono WAV,
`transcribe_audio` streams it through a recognizer in 8000-sample chunks,
`process_audio_file` retries the pipeline up to 3 times and derives a safe
output filename, and `main` coordinates a thread pool, renames files on
success and writes an ordered transcript file.

External effects (ffmpeg decoding, the Vosk engine, the filesystem, the
thread pool) are modelled as explicit parameters or oracles; the Python
control flow and string manipulation are translated directly.
-/

/-! ### Python character/string primitives -/

/-- Python `str.isalnum` for a single character.  Python's test is
Unicode-aware (letters and numbers of any script count).  The model is exact
on code points below `U+0100`: ASCII digits and letters, plus the Latin-1
alphanumerics `ª ² ³ µ ¹ º ¼ ½ ¾` and the letters `U+00C0`–`U+00FF` except
`×` (`U+00D7`) and `÷` (`U+00F7`).  Code points `≥ U+0100` are conservatively
mapped to `false`; no theorem below depends on them. -/
def pyIsAlnum (c : Char) : Bool :=
  let n := c.toNat
  (48 ≤ n && n ≤ 57) || (65 ≤ n && n ≤ 90) || (97 ≤ n && n ≤ 122) ||
  n == 0xAA || n == 0xB2 || n == 0xB3 || n == 0xB5 || n == 0xB9 || n == 0xBA ||
  n == 0xBC || n == 0xBD || n == 0xBE ||
  (0xC0 ≤ n && n ≤ 0xFF && !(n == 0xD7) && !(n == 0xF7))

/-- The test `c.isalnum() or c in ' -_.'` from line 90 of the source. -/
def keepChar (c : Char) : Bool :=
  pyIsAlnum c || c == ' ' || c == '-' || c == '_' || c == '.'

/-- One character of the sanitizing comprehension:
`c if c.isalnum() or c in ' -_.' else '_'`. -/
def sanChar (c : Char) : Char :=
  if keepChar c then c else '_'

/-- `"".join(c if c.isalnum() or c in ' -_.' else '_' for c in transcription[:50])`
(line 90 of the source). -/
def safe_name (t : String) : String :=
  ⟨(t.data.take 50).map sanChar⟩

/-- Python whitespace for `str.strip`: space, tab, newline, carriage return,
vertical tab, form feed (the ASCII whitespace Python strips; exotic Unicode
whitespace is not modelled and unused below). -/
def isPySpace (c : Char) : Bool :=
  c == ' ' || c == '\t' || c == '\n' || c == '\r' || c.toNat == 11 || c.toNat == 12

/-- Python `str.strip()`: drop leading and trailing whitespace. -/
def pyStrip (s : String) : String :=
  ⟨(((s.data.dropWhile isPySpace).reverse.dropWhile isPySpace).reverse)⟩

/-- Python `' '.join(xs)`. -/
def pyJoinSpace : List String → String
  | [] => ""
  | [x] => x
  | x :: y :: rest => x ++ " " ++ pyJoinSpace (y :: rest)

/-! ### Decimal formatting (`f"{n:02d}"`) -/

/-- The ASCII digit character for `d < 10`. -/
def digitChar (d : Nat) : Char := Char.ofNat (48 + d)

/-- Decimal digits of `n`, fuel-driven so that it is structural. -/
def natDecAux : Nat → Nat → List Char
  | 0, _ => []
  | Nat.succ fuel, n =>
      if n < 10 then [digitChar n]
      else natDecAux fuel (n / 10) ++ [digitChar (n % 10)]

/-- Decimal digits of `n` (Python `str(n)` for a nonnegative int). -/
def natDec (n : Nat) : List Char := natDecAux (n + 1) n

/-- Python `f"{n:02d}"`: decimal representation zero-padded to width 2. -/
def pad2 (n : Nat) : List Char :=
  if n < 10 then '0' :: natDec n else natDec n

/-- Numeric value of a digit character. -/
def digitVal (c : Char) : Nat := c.toNat - 48

/-- Value of a digit string read most-significant first. -/
def valDigits (l : List Char) : Nat :=
  l.foldl (fun a c => 10 * a + digitVal c) 0

/-! ### Filename derivation (lines 90–92 of the source) -/

/-- Python `os.path.splitext(name)[1]` for a bare filename: the suffix from
the last dot, except that a run of leading dots never starts an extension. -/
def splitextExt (name : String) : String :=
  let l := name.data
  let rest := l.drop (l.takeWhile (fun c => c == '.')).length
  let tail := (rest.reverse.takeWhile (fun c => !(c == '.'))).length
  if tail < rest.length then ⟨rest.drop (rest.length - tail - 1)⟩ else ""

/-- `f"{idx[0]+1:02d} - {safe_name}{os.path.splitext(audio_file)[1]}"`
(line 91).  `i` is the 0-based ordinal index, so the prefix shows `i + 1`. -/
def new_name (i : Nat) (safe ext : String) : String :=
  ⟨pad2 (i + 1) ++ ' ' :: '-' :: ' ' :: (safe.data ++ ext.data)⟩

/-- `os.path.join(dir, name)` for a directory without a trailing separator. -/
def joinPath (d n : String) : String :=
  ⟨d.data ++ '/' :: n.data⟩

/-- The transcript line `f"{idx+1:02d}. {transcription}"` (line 145). -/
def line_for (i : Nat) (t : String) : String :=
  ⟨pad2 (i + 1) ++ '.' :: ' ' :: t.data⟩

/-! ### The retry loop (lines 87–95 of the source)

`transcribe_audio(audio_path, model)` returns `None` on failure or a
(possibly empty) transcript string; within one task it is called once per
attempt, so it is modelled as an oracle from the attempt number to
`Option String`. -/

/-- Python truthiness of a `transcribe_audio` result: `None` and the empty
string are falsy. -/
def truthy : Option String → Bool
  | none => false
  | some t => !(t == "")

/-- The result 4-tuple of `process_audio_file`:
(ordinal index, original filename, derived filename or `None`,
transcript or `None`). -/
abbrev TaskResult := Nat × String × Option String × Option String

/-- The loop `for attempt in range(fuel)` starting at attempt number `k`:
returns the list of attempt numbers at which `transcribe_audio` was invoked,
paired with the first truthy transcription (or `none` if the fuel ran out).
On a truthy result the loop returns immediately (the `return` on line 92). -/
def retryTrace (f : Nat → Option String) : Nat → Nat → List Nat × Option String
  | _, 0 => ([], none)
  | k, Nat.succ fuel =>
      if truthy (f k) then ([k], f k)
      else (k :: (retryTrace f (k + 1) fuel).1, (retryTrace f (k + 1) fuel).2)

/-- Lines 87–95: run the retry loop with 3 attempts; on a truthy
transcription build the derived filename and return it, otherwise return the
null result.  (The source builds the name inside the loop body; the match on
the loop's outcome is equivalent because the outcome is exactly the
transcription of the first truthy attempt.) -/
def process_retry (i : Nat) (audio_file : String) (f : Nat → Option String) :
    TaskResult :=
  match (retryTrace f 0 3).2 with
  | some t => (i, audio_file, some (new_name i (safe_name t) (splitextExt audio_file)), some t)
  | none => (i, audio_file, none, none)

/-! ### `process_audio_file` as called (lines 81–95 and 133–140)

Line 83 unpacks `idx, audio_file, audio_dir, model = args` and line 85
immediately evaluates `idx[0]` and `idx[1]` inside an f-string.  Python
subscripting succeeds on a tuple and raises `TypeError` on an `int`, so the
first argument is modelled as a dynamic value. -/

/-- Exceptions that the modelled fragments can raise. -/
inductive PyError where
  | typeError
  | indexError
deriving DecidableEq, Repr

/-- The dynamic value bound to `idx`: either an `int` or a 2-tuple. -/
inductive PyIdx where
  | int : Nat → PyIdx
  | pair : Nat → Nat → PyIdx
deriving DecidableEq, Repr

/-- Python subscripting `idx[k]`: `TypeError` on an `int`, the component on a
2-tuple (out-of-range gives `IndexError`). -/
def pyGetItem : PyIdx → Nat → Except PyError Nat
  | .int _, _ => .error .typeError
  | .pair a _, 0 => .ok a
  | .pair _ b, 1 => .ok b
  | .pair _ _, _ => .error .indexError

/-- `process_audio_file(args)` (lines 81–95): unpack `args`, evaluate the
progress banner `f"Processing {idx[0]+1}/{idx[1]}: {audio_file}"` (line 85),
then run the retry loop.  A failed subscript propagates as an exception. -/
def process_audio_file (idx : PyIdx) (audio_file : String)
    (f : Nat → Option String) : Except PyError TaskResult := do
  let i ← pyGetItem idx 0
  let _total ← pyGetItem idx 1
  pure (process_retry i audio_file f)

/-- The first element of the tuple `main` submits for file number `i`:
`executor.submit(process_audio_file, (i, f, audio_dir, model))`
(lines 134–140) passes the plain enumeration integer, not a pair. -/
def mainSubmittedIdx (i : Nat) : PyIdx := .int i

/-! ### Temporary-file lifecycle (lines 16–41 and 43–79)

The filesystem is a list of existing paths.  `convOk` tells whether the
decode/filter/export pipeline (lines 24–37) ran without raising; `recog`
is the outcome of the recognition part of `transcribe_audio` after a
successful conversion (`none` covers the format-check failure and any
caught engine exception). -/

/-- `convert_to_wav` (lines 16–41) called with no `target_path`:
`tempfile.mkstemp` creates `tmp` on disk, then the conversion either
succeeds (returning the path) or raises, is caught, and returns `None` —
in both cases the created file is still on disk. -/
def convert_to_wav (fs : List String) (tmp : String) (convOk : Bool) :
    Option String × List String :=
  let fs1 := tmp :: fs
  if convOk then (some tmp, fs1) else (none, fs1)

/-- `transcribe_audio` (lines 43–79), filesystem facet: on a `None`
conversion the function returns `None` and the `finally` block sees
`temp_wav` falsy, removing nothing; on a successful conversion the
`finally` block removes the temporary WAV whatever the recognition did. -/
def transcribe_audio_fs (fs : List String) (tmp : String) (convOk : Bool)
    (recog : Option String) : Option String × List String :=
  match convert_to_wav fs tmp convOk with
  | (none, fs1) => (none, fs1)
  | (some p, fs1) => (recog, fs1.erase p)

/-! ### The recognizer stream (lines 51–68 of the source)

The converted WAV is modelled by its header fields and the engine's
behaviour per 8000-sample read: `none` when `rec.AcceptWaveform(chunk)`
returned `False` (no utterance boundary), `some raw` when it returned
`True` with `raw` the `'text'` field of `rec.Result()`; `finalText` is the
`'text'` field of `rec.FinalResult()`. -/

/-- A converted WAV file together with the engine's responses. -/
structure WavFile where
  channels : Nat
  sampwidth : Nat
  framerate : Nat
  chunks : List (Option String)
  finalText : String
deriving Repr

/-- The `while chunk := wf.readframes(8000)` loop (lines 60–63): returns the
number of chunk reads performed and the accumulated `results` list
(stripped, non-empty boundary texts in read order). -/
def streamLoop : List (Option String) → List String → Nat × List String
  | [], acc => (0, acc)
  | o :: rest, acc =>
      let acc1 :=
        match o with
        | some raw => if pyStrip raw = "" then acc else acc ++ [pyStrip raw]
        | none => acc
      let r := streamLoop rest acc1
      (r.1 + 1, r.2)

/-- `transcribe_audio` (lines 51–68), recognition facet: the format check on
lines 56–58 tests `wf.getnchannels() != 1 or wf.getsampwidth() != 2`
(the frame rate is not inspected), then the chunk loop runs, the final
result is drained once (lines 65–66), and the joined, stripped text is
returned (line 68). -/
def transcribe_audio_stream (w : WavFile) : Option String :=
  if !(w.channels == 1) || !(w.sampwidth == 2) then none
  else
    let results := (streamLoop w.chunks []).2
    let results1 :=
      if pyStrip w.finalText = "" then results else results ++ [pyStrip w.finalText]
    some (pyStrip (pyJoinSpace results1))

/-- Modelled from the spec's words, for comparison with the loop above:
"every non-empty per-chunk recognized text in read order followed by the
non-empty final result". -/
def segmentsSpec (w : WavFile) : List String :=
  (w.chunks.filterMap fun o =>
    match o with
    | some raw => if pyStrip raw = "" then none else some (pyStrip raw)
    | none => none)
  ++ (if pyStrip w.finalText = "" then [] else [pyStrip w.finalText])

/-- The character class named by the claim and the spec:
`[A-Za-z0-9]`, space, hyphen, underscore, period. -/
def asciiAllowedChar (c : Char) : Bool :=
  (('0' ≤ c && c ≤ '9') || ('A' ≤ c && c ≤ 'Z') || ('a' ≤ c && c ≤ 'z')) ||
  c == ' ' || c == '-' || c == '_' || c == '.'

/-! ### The coordinator (lines 97–165 of the source) -/

/-- Line 144–145: buffer `(idx, f"{idx+1:02d}. {transcription}")` for every
completed result whose transcription is truthy. -/
def collectResults (completed : List TaskResult) : List (Nat × String) :=
  completed.filterMap fun r =>
    match r.2.2.2 with
    | some t => if t = "" then none else some (r.1, line_for r.1 t)
    | none => none

/-- The sort key of line 161: `sorted(results, key=lambda x: x[0])`. -/
def keyLe (a b : Nat × String) : Prop := a.1 ≤ b.1

instance : DecidableRel keyLe := fun a b => Nat.decLe a.1 b.1

instance : IsTotal (Nat × String) keyLe := ⟨fun a b => Nat.le_total a.1 b.1⟩

instance : IsTrans (Nat × String) keyLe := ⟨fun _ _ _ h h2 => Nat.le_trans h h2⟩

/-- The buffered results sorted by ordinal index (line 161; Python's
`sorted` is a stable comparison sort). -/
def final_sorted (completed : List TaskResult) : List (Nat × String) :=
  List.insertionSort keyLe (collectResults completed)

/-- The transcript lines written by the loop on lines 161–162, in order. -/
def transcript_lines (completed : List TaskResult) : List String :=
  (final_sorted completed).map (fun p => p.2)

/-- The extension filter on lines 111–115:
`f.lower().endswith(('.m4a', '.mp3', '.wav', '.ogg', '.flac'))`. -/
def audioExtOk (f : String) : Bool :=
  [".m4a", ".mp3", ".wav", ".ogg", ".flac"].any fun e =>
    e.data.isSuffixOf (f.data.map Char.toLower)

/-- What `future.result()` yields for one submitted task: the task's return
value, or the exception the task raised (re-raised in `main`). -/
inductive FutureOutcome where
  | value : TaskResult → FutureOutcome
  | raised : PyError → FutureOutcome

/-- The `for future in as_completed(futures)` loop (lines 142–154), over the
outcomes in completion order: accumulates the buffered `(idx, line)` pairs
and the performed renames `(orig_name, new_name)`; an exception from
`future.result()` stops the loop and propagates (third component). -/
def collectLoop : List FutureOutcome → List (Nat × String) → List (String × String) →
    (List (Nat × String) × List (String × String)) × Option PyError
  | [], buf, rens => ((buf, rens), none)
  | .raised e :: _, buf, rens => ((buf, rens), some e)
  | .value r :: rest, buf, rens =>
      match r.2.2.2 with
      | some t =>
          if t = "" then collectLoop rest buf rens
          else
            let buf1 := buf ++ [(r.1, line_for r.1 t)]
            let rens1 :=
              match r.2.2.1 with
              | some nn => rens ++ [(r.2.1, nn)]
              | none => rens
            collectLoop rest buf1 rens1
      | none => collectLoop rest buf rens

/-- Observable outcome of one run of `main` (lines 97–165). -/
structure MainRun where
  exitCode : Nat
  listedDir : Bool
  submitted : Nat
  renames : List (String × String)
  written : List String
deriving DecidableEq, Repr

/-- `main` (lines 97–165): on model-load failure (lines 104–108) it prints
and returns — `os.listdir` never runs, nothing is submitted, renamed or
written, and falling off `main` exits the process with status 0.  Otherwise
the directory listing is filtered, one task per file is submitted, the
completion loop runs (an uncaught exception from a future aborts `main`
with exit status 1 before the transcript file is opened), and finally the
buffered lines are written sorted by ordinal index (lines 157–163). -/
def mainRun (loadOk : Bool) (dirFiles : List String)
    (outcomes : List FutureOutcome) : MainRun :=
  if loadOk then
    let files := dirFiles.filter audioExtOk
    if files.isEmpty then
      { exitCode := 0, listedDir := true, submitted := 0, renames := [], written := [] }
    else
      match collectLoop outcomes [] [] with
      | ((_, rens), some _) =>
          { exitCode := 1, listedDir := true, submitted := files.length,
            renames := rens, written := [] }
      | ((buf, rens), none) =>
          { exitCode := 0, listedDir := true, submitted := files.length,
            renames := rens,
            written := if buf.isEmpty then []
                       else (List.insertionSort keyLe buf).map (fun p => p.2) }
  else
    { exitCode := 0, listedDir := false, submitted := 0, renames := [], written := [] }

/-! ### Concrete inputs used by witnesses below -/

/-- A transcription oracle that fails on attempts 0 and 1 and succeeds on
attempt 2. -/
def fEx : Nat → Option String := fun k => if k = 2 then some "ok" else none

/-- A converted WAV whose frame rate violates the 16000 Hz precondition but
passes the code's format check. -/
def wBadRate : WavFile := ⟨1, 2, 8000, [some "hi"], ""⟩

/-- A converted WAV with two channels (rejected by the format check). -/
def wBadChan : WavFile := ⟨2, 2, 16000, [], ""⟩

/-- A well-formed converted WAV with boundary, silent and empty chunks. -/
def wEx : WavFile := ⟨1, 2, 16000, [some " hello ", none, some "", some "out"], " bye "⟩

/-- Three completed tasks, listed out of ordinal order. -/
def completedEx : List TaskResult :=
  [(2, "c.wav", some "03 - z.wav", some "z"),
   (0, "a.wav", some "01 - x.wav", some "x"),
   (1, "b.mp3", none, none)]

/-! ## Theorems -/

/-! ### Sanitization (claims C6 and C9) -/

theorem sanChar_keep (c : Char) : keepChar (sanChar c) = true := by
  by_cases h : keepChar c = true
  · simp [sanChar, h]
  · have h2 : sanChar c = '_' := by simp [sanChar, h]
    rw [h2]; decide

theorem sanChar_sanChar (c : Char) : sanChar (sanChar c) = sanChar c := by
  by_cases h : keepChar c = true
  · simp [sanChar, h]
  · have h2 : sanChar c = '_' := by simp [sanChar, h]
    rw [h2]; decide

/-- Claim C6, counterexample: the claim restricts sanitized characters to
`[A-Za-z0-9]`, space, hyphen, underscore, period; but Python's `isalnum` is
Unicode-aware, so the letter `é` survives sanitization although it is outside
that ASCII class. -/
theorem sanitize_ascii_claim_fails :
    ('é' ∈ (safe_name "é").data) ∧ asciiAllowedChar 'é' = false := by decide

/-- Claim C6, amended: every character of the sanitized suffix passes the
source's own test — it is Python-alphanumeric (Unicode-aware) or one of
space, hyphen, underscore, period; every character failing that test was
replaced by an underscore, which itself passes the test. -/
theorem sanitized_chars_in_allowed_set (t : String) :
    ∀ c ∈ (safe_name t).data, keepChar c = true := by
  intro c hc
  have hc2 : c ∈ (t.data.take 50).map sanChar := hc
  obtain ⟨a, _, rfl⟩ := List.mem_map.mp hc2
  exact sanChar_keep a

/-- Witness for `sanitized_chars_in_allowed_set` at a concrete transcript. -/
theorem sanitized_chars_in_allowed_set_witness :
    ('_' ∈ (safe_name "a!").data) ∧ keepChar '_' = true :=
  ⟨by decide, sanitized_chars_in_allowed_set "a!" '_' (by decide)⟩

/-- Claim C9: the filename sanitizer (truncation to 50 characters followed by
the character replacement) is idempotent. -/
theorem safe_name_idempotent (t : String) :
    safe_name (safe_name t) = safe_name t := by
  apply String.ext
  show (((t.data.take 50).map sanChar).take 50).map sanChar
      = (t.data.take 50).map sanChar
  have hlen : ((t.data.take 50).map sanChar).length ≤ 50 := by
    rw [List.length_map, List.length_take]
    exact inf_le_left
  rw [List.take_of_length_le hlen, List.map_map]
  have hfun : sanChar ∘ sanChar = sanChar := funext sanChar_sanChar
  rw [hfun]

/-! ### Decimal prefixes and derived-filename distinctness (claim C10) -/

theorem digitVal_digitChar (d : Nat) (h : d < 10) :
    digitVal (digitChar d) = d := by
  interval_cases d <;> decide

theorem digitChar_isDigit (d : Nat) (h : d < 10) :
    (digitChar d).isDigit = true := by
  interval_cases d <;> decide

theorem valDigits_append (l : List Char) (c : Char) :
    valDigits (l ++ [c]) = 10 * valDigits l + digitVal c := by
  simp [valDigits, List.foldl_append]

theorem valDigits_natDecAux :
    ∀ fuel n, n < fuel → valDigits (natDecAux fuel n) = n := by
  intro fuel
  induction fuel with
  | zero => intro n h; omega
  | succ fuel ih =>
    intro n h
    by_cases h10 : n < 10
    · have e : natDecAux (fuel + 1) n = [digitChar n] := by
        simp [natDecAux, h10]
      rw [e]
      have : valDigits [digitChar n] = 10 * 0 + digitVal (digitChar n) := rfl
      rw [this, digitVal_digitChar n h10]
      omega
    · have e : natDecAux (fuel + 1) n
          = natDecAux fuel (n / 10) ++ [digitChar (n % 10)] := by
        simp [natDecAux, h10]
      have hdiv : n / 10 < n := Nat.div_lt_self (by omega) (by omega)
      rw [e, valDigits_append, ih (n / 10) (by omega),
        digitVal_digitChar (n % 10) (Nat.mod_lt _ (by omega))]
      omega

theorem valDigits_natDec (n : Nat) : valDigits (natDec n) = n :=
  valDigits_natDecAux (n + 1) n (Nat.lt_succ_self n)

theorem valDigits_pad2 (n : Nat) : valDigits (pad2 n) = n := by
  by_cases h : n < 10
  · rw [pad2, if_pos h]
    have h0 : digitVal '0' = 0 := by decide
    show List.foldl (fun a c => 10 * a + digitVal c) 0 ('0' :: natDec n) = n
    rw [List.foldl_cons, h0, Nat.mul_zero, Nat.add_zero]
    exact valDigits_natDec n
  · rw [pad2, if_neg h]
    exact valDigits_natDec n

theorem pad2_inj (m n : Nat) (h : pad2 m = pad2 n) : m = n := by
  have h2 := congrArg valDigits h
  rwa [valDigits_pad2, valDigits_pad2] at h2

theorem natDecAux_digits :
    ∀ fuel n, ∀ c ∈ natDecAux fuel n, c.isDigit = true := by
  intro fuel
  induction fuel with
  | zero => intro n c hc; simp [natDecAux] at hc
  | succ fuel ih =>
    intro n c hc
    by_cases h10 : n < 10
    · have e : natDecAux (fuel + 1) n = [digitChar n] := by
        simp [natDecAux, h10]
      rw [e] at hc
      rcases List.mem_singleton.mp hc with rfl
      exact digitChar_isDigit n h10
    · have e : natDecAux (fuel + 1) n
          = natDecAux fuel (n / 10) ++ [digitChar (n % 10)] := by
        simp [natDecAux, h10]
      rw [e] at hc
      rcases List.mem_append.mp hc with hc | hc
      · exact ih (n / 10) c hc
      · rcases List.mem_singleton.mp hc with rfl
        exact digitChar_isDigit (n % 10) (Nat.mod_lt _ (by omega))

theorem pad2_digits (n : Nat) : ∀ c ∈ pad2 n, c.isDigit = true := by
  intro c hc
  rw [pad2] at hc
  by_cases h : n < 10
  · rw [if_pos h] at hc
    rcases List.mem_cons.mp hc with rfl | hc
    · decide
    · exact natDecAux_digits (n + 1) n c hc
  · rw [if_neg h] at hc
    exact natDecAux_digits (n + 1) n c hc

theorem takeWhile_digits (l rest : List Char)
    (hl : ∀ c ∈ l, c.isDigit = true) :
    (l ++ ' ' :: rest).takeWhile Char.isDigit = l := by
  induction l with
  | nil => rw [List.nil_append, List.takeWhile_cons, if_neg (by decide)]
  | cons a l ih =>
    have ha : a.isDigit = true := hl a (List.mem_cons_self a l)
    rw [List.cons_append, List.takeWhile_cons, if_pos ha,
      ih (fun c hc => hl c (List.mem_cons_of_mem a hc))]

/-- Claim C10: two successful tasks with distinct ordinal indices always get
distinct derived filenames — the decimal index prefix determines the index
because the separator after it is not a digit — so the in-place renames
(both inside the same source directory) never target the same path. -/
theorem derived_filenames_distinct (i j : Nat) (s1 e1 s2 e2 : String)
    (hij : i ≠ j) :
    new_name i s1 e1 ≠ new_name j s2 e2 ∧
    ∀ d : String, joinPath d (new_name i s1 e1) ≠ joinPath d (new_name j s2 e2) := by
  have hnn : new_name i s1 e1 ≠ new_name j s2 e2 := by
    intro h
    have hdata : pad2 (i + 1) ++ ' ' :: '-' :: ' ' :: (s1.data ++ e1.data)
        = pad2 (j + 1) ++ ' ' :: '-' :: ' ' :: (s2.data ++ e2.data) :=
      congrArg String.data h
    have h2 := congrArg (List.takeWhile Char.isDigit) hdata
    rw [takeWhile_digits _ _ (pad2_digits (i + 1)),
      takeWhile_digits _ _ (pad2_digits (j + 1))] at h2
    have h3 := pad2_inj (i + 1) (j + 1) h2
    omega
  refine ⟨hnn, fun d h => hnn ?_⟩
  have hdata : d.data ++ '/' :: (new_name i s1 e1).data
      = d.data ++ '/' :: (new_name j s2 e2).data := congrArg String.data h
  have h3 := List.append_cancel_left hdata
  apply String.ext
  injection h3

/-- Witness for `derived_filenames_distinct` at concrete indices. -/
theorem derived_filenames_distinct_witness :
    (0 : Nat) ≠ 1 ∧ new_name 0 "a" ".wav" ≠ new_name 1 "b" ".mp3" :=
  ⟨by decide, (derived_filenames_distinct 0 1 "a" ".wav" "b" ".mp3" (by decide)).1⟩

/-! ### The retry policy (claims C1 and C2) -/

theorem retryTrace_succ_pos (g : Nat → Option String) (k fuel : Nat)
    (h : truthy (g k) = true) :
    retryTrace g k (fuel + 1) = ([k], g k) := by
  show (if truthy (g k) then ([k], g k) else _) = ([k], g k)
  rw [if_pos h]

theorem retryTrace_succ_neg (g : Nat → Option String) (k fuel : Nat)
    (h : truthy (g k) = false) :
    retryTrace g k (fuel + 1)
      = (k :: (retryTrace g (k + 1) fuel).1, (retryTrace g (k + 1) fuel).2) := by
  show (if truthy (g k) then ([k], g k) else _) = _
  rw [if_neg (by simp [h])]

theorem retryTrace_bound (g : Nat → Option String) :
    ∀ fuel k, (retryTrace g k fuel).1.length ≤ fuel ∧
      ∀ j ∈ (retryTrace g k fuel).1, k ≤ j ∧ j < k + fuel := by
  intro fuel
  induction fuel with
  | zero => intro k; simp [retryTrace]
  | succ fuel ih =>
    intro k
    by_cases h : truthy (g k) = true
    · rw [retryTrace_succ_pos g k fuel h]
      constructor
      · simp
      · intro j hj
        rcases List.mem_singleton.mp hj with rfl
        omega
    · rw [retryTrace_succ_neg g k fuel (by simpa using h)]
      constructor
      · have := (ih (k + 1)).1
        simpa using Nat.succ_le_succ this
      · intro j hj
        rcases List.mem_cons.mp hj with rfl | hj
        · omega
        · have := (ih (k + 1)).2 j hj
          omega

theorem truthy_some (o : Option String) (h : truthy o = true) :
    ∃ t, o = some t ∧ t ≠ "" := by
  cases o with
  | none => simp [truthy] at h
  | some t => exact ⟨t, rfl, by simpa [truthy] using h⟩

/-- Claim C2: the task makes at most 3 sequential attempts (numbered 0, 1, 2);
when attempts 0 and 1 fail, the attempt trace is exactly `[0, 1, 2]` (three
calls to the pipeline, never a fourth), and the task returns the attempt-2
result when it is truthy and the all-null result when it is not.  An empty
transcript is falsy in Python, so it counts as a failed attempt. -/
theorem retry_policy_three_attempts (i : Nat) (file : String)
    (f : Nat → Option String)
    (h0 : truthy (f 0) = false) (h1 : truthy (f 1) = false) :
    (∀ g : Nat → Option String, (retryTrace g 0 3).1.length ≤ 3 ∧
        ∀ k ∈ (retryTrace g 0 3).1, k < 3) ∧
    (retryTrace f 0 3).1 = [0, 1, 2] ∧
    (truthy (f 2) = true →
      process_retry i file f =
        (i, file, some (new_name i (safe_name ((f 2).getD ""))
          (splitextExt file)), f 2)) ∧
    (truthy (f 2) = false → process_retry i file f = (i, file, none, none)) := by
  have e0 : retryTrace f 0 3
      = (0 :: (retryTrace f 1 2).1, (retryTrace f 1 2).2) :=
    retryTrace_succ_neg f 0 2 h0
  have e1 : retryTrace f 1 2
      = (1 :: (retryTrace f 2 1).1, (retryTrace f 2 1).2) :=
    retryTrace_succ_neg f 1 1 h1
  refine ⟨?_, ?_, ?_, ?_⟩
  · intro g
    refine ⟨(retryTrace_bound g 3 0).1, fun k hk => ?_⟩
    have := (retryTrace_bound g 3 0).2 k hk
    omega
  · by_cases h2 : truthy (f 2) = true
    · rw [e0, e1, retryTrace_succ_pos f 2 0 h2]
    · rw [e0, e1, retryTrace_succ_neg f 2 0 (by simpa using h2)]
      rfl
  · intro h2
    obtain ⟨t, ht, htne⟩ := truthy_some (f 2) h2
    have htr : (retryTrace f 0 3).2 = some t := by
      rw [e0, e1, retryTrace_succ_pos f 2 0 h2]
      exact ht
    rw [process_retry, htr, ht]
    rfl
  · intro h2
    have htr : (retryTrace f 0 3).2 = none := by
      rw [e0, e1, retryTrace_succ_neg f 2 0 h2]
      rfl
    rw [process_retry, htr]

/-- Witness for `retry_policy_three_attempts`: an oracle failing on attempts
0 and 1 and succeeding on attempt 2. -/
theorem retry_policy_three_attempts_witness :
    truthy (fEx 0) = false ∧ truthy (fEx 1) = false ∧
    (retryTrace fEx 0 3).1 = [0, 1, 2] ∧
    process_retry 0 "a.wav" fEx = (0, "a.wav", some "01 - ok.wav", some "ok") := by
  have h := retry_policy_three_attempts 0 "a.wav" fEx (by decide) (by decide)
  refine ⟨by decide, by decide, h.2.1, ?_⟩
  rw [h.2.2.1 (by decide)]
  decide

/-- Claim C1, code bug: `main` submits `(i, f, audio_dir, model)` with `i`
the plain enumeration integer (lines 134–140), but `process_audio_file`
evaluates `idx[0]` and `idx[1]` (line 85), so with the arguments the program
actually constructs the task raises `TypeError` instead of returning a
result tuple. -/
theorem process_audio_file_raises_on_main_args :
    process_audio_file (mainSubmittedIdx 0) "a.wav" (fun _ => some "hello")
      = .error .typeError := rfl

/-- With a 2-tuple first element — the shape the body of
`process_audio_file` expects — the task does run to completion and returns a
structured result for every oracle. -/
theorem process_audio_file_ok_on_pair (i total : Nat) (file : String)
    (f : Nat → Option String) :
    process_audio_file (PyIdx.pair i total) file f
      = .ok (process_retry i file f) := rfl

/-! ### Temporary-file lifecycle (claim C4) -/

/-- Claim C4, code bug: when the conversion raises after `mkstemp` created
the temporary WAV (e.g. a corrupt input that `AudioSegment.from_file` cannot
decode), `convert_to_wav` returns `None` and the path is lost, so the
`finally` block of `transcribe_audio` removes nothing — the temporary file
is still on the filesystem after the call returns. -/
theorem temp_wav_leak_on_conversion_failure :
    transcribe_audio_fs [] "tmp-abc.wav" false none = (none, ["tmp-abc.wav"]) ∧
    "tmp-abc.wav" ∈ (transcribe_audio_fs [] "tmp-abc.wav" false none).2 :=
  ⟨rfl, by decide⟩

/-- On the paths where the conversion itself succeeded, the `finally` block
does delete the temporary WAV, whatever the recognition did. -/
theorem temp_wav_removed_on_conversion_success (fs : List String)
    (tmp : String) (recog : Option String) (h : tmp ∉ fs) :
    tmp ∉ (transcribe_audio_fs fs tmp true recog).2 := by
  show tmp ∉ (tmp :: fs).erase tmp
  rw [List.erase_cons_head]
  exact h

/-! ### Format validation (claim C5) -/

/-- Claim C5, counterexample: a mono 16-bit WAV at 8000 Hz violates the
claimed mono/16-bit/16000 Hz precondition, yet the code streams it and
returns a transcript — the frame rate is never inspected (lines 56–58 test
only `getnchannels` and `getsampwidth`). -/
theorem rate_violation_not_rejected :
    transcribe_audio_stream wBadRate ≠ none ∧ wBadRate.framerate ≠ 16000 := by
  decide

/-- Claim C5, amended: the recognizer validates only that the canonical
audio is mono with 2-byte (16-bit) samples before streaming; violating
either of those yields the `None` failure result (no exception), while the
sample rate is not validated at all. -/
theorem format_check_rejects_channels_width (w : WavFile)
    (h : w.channels ≠ 1 ∨ w.sampwidth ≠ 2) :
    transcribe_audio_stream w = none := by
  have hc : (!(w.channels == 1) || !(w.sampwidth == 2)) = true := by
    rcases h with h | h <;> simp [h]
  simp [transcribe_audio_stream, hc]

/-- Witness for `format_check_rejects_channels_width` on a 2-channel WAV. -/
theorem format_check_rejects_channels_width_witness :
    (wBadChan.channels ≠ 1 ∨ wBadChan.sampwidth ≠ 2) ∧
    transcribe_audio_stream wBadChan = none :=
  ⟨Or.inl (by decide),
   format_check_rejects_channels_width wBadChan (Or.inl (by decide))⟩

/-! ### The recognition stream (claim C7) -/

theorem streamLoop_eq (chunks : List (Option String)) :
    ∀ acc, streamLoop chunks acc
      = (chunks.length,
         acc ++ chunks.filterMap fun o =>
           match o with
           | some raw => if pyStrip raw = "" then none else some (pyStrip raw)
           | none => none) := by
  induction chunks with
  | nil => intro acc; simp [streamLoop]
  | cons o rest ih =>
    intro acc
    cases o with
    | none => simp [streamLoop, ih, List.filterMap_cons]
    | some raw =>
      by_cases h : pyStrip raw = ""
      · simp [streamLoop, ih, List.filterMap_cons, h]
      · simp [streamLoop, ih, List.filterMap_cons, h]

/-- Claim C7: on canonical audio that passes the format check, the chunk
loop performs exactly one read per chunk (all `N` chunks are consumed), the
final result is drained once, and the returned transcript is the stripped,
space-joined concatenation of the non-empty per-chunk texts in read order
followed by the non-empty final text — the declarative `segmentsSpec`. -/
theorem recognizer_stream_refines_spec (w : WavFile)
    (h1 : w.channels = 1) (h2 : w.sampwidth = 2) :
    (streamLoop w.chunks []).1 = w.chunks.length ∧
    transcribe_audio_stream w
      = some (pyStrip (pyJoinSpace (segmentsSpec w))) := by
  constructor
  · rw [streamLoop_eq]
  · have hc : (!(w.channels == 1) || !(w.sampwidth == 2)) = false := by
      simp [h1, h2]
    have hres : (streamLoop w.chunks []).2
        = w.chunks.filterMap fun o =>
            match o with
            | some raw => if pyStrip raw = "" then none else some (pyStrip raw)
            | none => none := by
      rw [streamLoop_eq]
      simp
    rw [transcribe_audio_stream, hc]
    simp only [Bool.false_eq_true, if_false, hres, segmentsSpec]
    by_cases hf : pyStrip w.finalText = ""
    · simp [hf]
    · simp [hf]

/-- Witness for `recognizer_stream_refines_spec` on a concrete WAV with a
boundary chunk, a silent chunk, an empty-text boundary chunk and a final
result. -/
theorem recognizer_stream_refines_spec_witness :
    wEx.channels = 1 ∧ wEx.sampwidth = 2 ∧
    ((streamLoop wEx.chunks []).1 = wEx.chunks.length ∧
     transcribe_audio_stream wEx
       = some (pyStrip (pyJoinSpace (segmentsSpec wEx)))) :=
  ⟨rfl, rfl, recognizer_stream_refines_spec wEx rfl rfl⟩

/-! ### Coordinator ordering (claim C3) -/

theorem collect_keys_sublist (completed : List TaskResult) :
    List.Sublist ((collectResults completed).map Prod.fst)
      (completed.map Prod.fst) := by
  induction completed with
  | nil => simp [collectResults]
  | cons r rest ih =>
    cases hr : r.2.2.2 with
    | none =>
      have e : collectResults (r :: rest) = collectResults rest := by
        simp [collectResults, List.filterMap_cons, hr]
      rw [e, List.map_cons]
      exact List.Sublist.cons _ ih
    | some t =>
      by_cases ht : t = ""
      · have e : collectResults (r :: rest) = collectResults rest := by
          simp [collectResults, List.filterMap_cons, hr, ht]
        rw [e, List.map_cons]
        exact List.Sublist.cons _ ih
      · have e : collectResults (r :: rest)
            = (r.1, line_for r.1 t) :: collectResults rest := by
          simp [collectResults, List.filterMap_cons, hr, ht]
        rw [e, List.map_cons, List.map_cons]
        exact List.Sublist.cons₂ _ ih

/-- Claim C3: whatever order the futures complete in (any `completed` list),
as long as the task indices are pairwise distinct, the buffered lines sorted
on line 161 come out in strictly ascending ordinal-index order, so the lines
written on line 162 appear in strictly ascending index order. -/
theorem coordinator_output_ascending (completed : List TaskResult)
    (h : (completed.map Prod.fst).Nodup) :
    List.Sorted (fun a b => a < b)
      ((final_sorted completed).map Prod.fst) := by
  have hperm : List.Perm (final_sorted completed) (collectResults completed) :=
    List.perm_insertionSort keyLe (collectResults completed)
  have hsorted : List.Sorted keyLe (final_sorted completed) :=
    List.sorted_insertionSort keyLe (collectResults completed)
  have hnodup0 : ((collectResults completed).map Prod.fst).Nodup :=
    (collect_keys_sublist completed).nodup h
  have hnodup : ((final_sorted completed).map Prod.fst).Nodup :=
    ((hperm.map Prod.fst).symm).nodup hnodup0
  have hle : List.Pairwise (fun a b : Nat × String => a.1 ≤ b.1)
      (final_sorted completed) := hsorted
  have hne : List.Pairwise (fun a b : Nat × String => a.1 ≠ b.1)
      (final_sorted completed) := List.pairwise_map.mp hnodup
  show List.Pairwise (fun a b : Nat => a < b)
      ((final_sorted completed).map Prod.fst)
  rw [List.pairwise_map]
  exact (hle.and hne).imp fun hab => lt_of_le_of_ne hab.1 hab.2

/-- Witness for `coordinator_output_ascending` on three tasks completing out
of ordinal order. -/
theorem coordinator_output_ascending_witness :
    (completedEx.map Prod.fst).Nodup ∧
    List.Sorted (fun a b => a < b) ((final_sorted completedEx).map Prod.fst) :=
  ⟨by decide, coordinator_output_ascending completedEx (by decide)⟩

/-! ### Model-load failure (claim C8) -/

/-- Claim C8, counterexample: when the Vosk model fails to load, `main`
prints the error and returns normally (lines 104–108), so the process exits
with status 0 — a success indication, not the non-success indication the
claim asserts. -/
theorem model_load_failure_exit_zero :
    (mainRun false ["a.wav"] []).exitCode = 0 := rfl

/-- Claim C8, amended: a model-load failure aborts the run before any file
processing — the input directory is never listed, no task is submitted, no
file is renamed and no transcript line is written — but the process then
exits with status 0 rather than a non-success code. -/
theorem model_load_failure_aborts_run (dirFiles : List String)
    (outcomes : List FutureOutcome) :
    mainRun false dirFiles outcomes
      = { exitCode := 0, listedDir := false, submitted := 0,
          renames := [], written := [] } := rfl
